import Mathlib

/-!
Verification development for the exit-strategy core of the trading bot:
a shallow embedding of `src/core/sell_strategy_manager.py` and
`src/core/order_executor.py`, with theorems about the exit logic,
price tracking, callback delivery and order sizing.

Prices and quantities are embedded as rationals (`ℚ`); Python dict-shaped
strategy records become a `Strategy` structure; nullable fields become
`Option`; Python truthiness tests on `trailing_stop_price` are modelled
explicitly (`None` and `0.0` are falsy).
-/

namespace SniperCore

/-- Strategy configuration, mirroring the `strategy_config` dict consumed by
`SellStrategyManager.add_strategy` (sell_strategy_manager.py lines 94-102). -/
structure StrategyConfig where
  take_profit_percentage : ℚ
  tp_sell_percentage : ℚ
  stop_loss_percentage : ℚ
  trailing_stop_percentage : ℚ
  tsl_min_activation_percentage : ℚ
  time_based_minutes : ℚ
  deriving Repr, DecidableEq

/-- Process-wide defaults from `utils/config.py` (PROFIT_TARGET_PERCENTAGE=20,
TP_SELL_PERCENTAGE=100, STOP_LOSS_PERCENTAGE=10, TRAILING_STOP_PERCENTAGE=5,
TSL_MIN_ACTIVATION_PERCENTAGE=20, TIME_BASED_SELL_MINUTES=30). -/
def defaultConfig : StrategyConfig :=
  { take_profit_percentage := 20
    tp_sell_percentage := 100
    stop_loss_percentage := 10
    trailing_stop_percentage := 5
    tsl_min_activation_percentage := 20
    time_based_minutes := 30 }

/-- One strategy record, mirroring the dict built in
`SellStrategyManager.add_strategy` (sell_strategy_manager.py lines 112-131)
plus the sell-completion fields added in `_handle_sell_completion`
(lines 514-518).  `trailing_stop_price` is nullable in the source
(`None` until activation), hence `Option ℚ`. -/
structure Strategy where
  symbol : String
  buy_price : ℚ
  quantity : ℚ
  original_quantity : ℚ
  take_profit_price : ℚ
  tp_sell_percentage : ℚ
  tp_executed : Bool
  stop_loss_price : ℚ
  trailing_stop_percentage : ℚ
  trailing_stop_price : Option ℚ
  tsl_min_activation_percentage : ℚ
  tsl_activation_price : ℚ
  tsl_activated : Bool
  highest_price : ℚ
  time_based_minutes : ℚ
  status : String
  executed : Bool
  sell_price : Option ℚ
  sell_quantity : Option ℚ
  sell_value : Option ℚ
  sell_reason : Option String
  deriving Repr, DecidableEq

/-- `SellStrategyManager.add_strategy` (sell_strategy_manager.py lines 81-145):
computes the derived target prices and builds the strategy record.  The
source performs no validation of `buy_price`; neither does the embedding. -/
def addStrategy (symbol : String) (buy_price quantity : ℚ)
    (cfg : StrategyConfig) : Strategy :=
  let take_profit_price := buy_price * (1 + cfg.take_profit_percentage / 100)
  let stop_loss_price := buy_price * (1 - cfg.stop_loss_percentage / 100)
  let tsl_activation_price :=
    buy_price * (1 + cfg.tsl_min_activation_percentage / 100)
  { symbol := symbol
    buy_price := buy_price
    quantity := quantity
    original_quantity := quantity
    take_profit_price := take_profit_price
    tp_sell_percentage := cfg.tp_sell_percentage
    tp_executed := false
    stop_loss_price := stop_loss_price
    trailing_stop_percentage := cfg.trailing_stop_percentage
    trailing_stop_price := none
    tsl_min_activation_percentage := cfg.tsl_min_activation_percentage
    tsl_activation_price := tsl_activation_price
    tsl_activated := false
    highest_price := buy_price
    time_based_minutes := cfg.time_based_minutes
    status := "ACTIVE"
    executed := false
    sell_price := none
    sell_quantity := none
    sell_value := none
    sell_reason := none }

/-- Appending the freshly created strategy to the active set, mirroring
`self.active_strategies[strategy_id] = {...}` in `add_strategy`
(dict insertion preserves insertion order, so a list model is faithful). -/
def addStrategyToActive (strategies : List Strategy) (symbol : String)
    (buy_price quantity : ℚ) (cfg : StrategyConfig) : List Strategy :=
  strategies ++ [addStrategy symbol buy_price quantity cfg]

/-- Python truthiness of the nullable `trailing_stop_price`:
`None` and `0.0` are falsy, every other float is truthy.  Used to model
`strategy['trailing_stop_price']` appearing bare in a boolean context
(sell_strategy_manager.py lines 276, 384, 403). -/
def tslTruthy : Option ℚ → Bool
  | none => false
  | some t => !(t == 0)

/-- `SellStrategyManager._update_price_tracking` (sell_strategy_manager.py
lines 247-287): updates the highest observed price and, nested inside the
"new high" branch, activates or ratchets the trailing stop.  The ratchet
update condition mirrors the source's
`not strategy['trailing_stop_price'] or new_trailing_stop > strategy['trailing_stop_price']`
(Python short-circuits, so the comparison only runs on a non-`None` value). -/
def updatePriceTracking (s : Strategy) (current_price : ℚ) : Strategy :=
  if s.highest_price < current_price then
    let s1 := { s with highest_price := current_price }
    if s1.tsl_activated = false ∧ 0 < s1.trailing_stop_percentage then
      if s1.tsl_activation_price ≤ current_price then
        { s1 with
          trailing_stop_price :=
            some (current_price * (1 - s1.trailing_stop_percentage / 100))
          tsl_activated := true }
      else s1
    else if s1.tsl_activated = true ∧ 0 < s1.trailing_stop_percentage then
      let new_trailing_stop :=
        current_price * (1 - s1.trailing_stop_percentage / 100)
      match s1.trailing_stop_price with
      | none => { s1 with trailing_stop_price := some new_trailing_stop }
      | some t =>
        if t = 0 ∨ t < new_trailing_stop then
          { s1 with trailing_stop_price := some new_trailing_stop }
        else s1
    else s1
  else s

/-- `SellStrategyManager._should_sell` (sell_strategy_manager.py
lines 363-391): stop loss, then activated trailing stop, then
not-yet-executed take profit. -/
def shouldSell (s : Strategy) (current_price : ℚ) : Bool :=
  if current_price ≤ s.stop_loss_price then true
  else if s.tsl_activated = true ∧ tslTruthy s.trailing_stop_price = true ∧
      current_price ≤ s.trailing_stop_price.getD 0 then true
  else if s.tp_executed = false ∧ s.take_profit_price ≤ current_price then true
  else false

/-- `SellStrategyManager._get_sell_reason` (sell_strategy_manager.py
lines 393-413), with the same conditional ordering as `_should_sell`. -/
def getSellReason (s : Strategy) (current_price : ℚ) : String :=
  if current_price ≤ s.stop_loss_price then "STOP_LOSS"
  else if s.tsl_activated = true ∧ tslTruthy s.trailing_stop_price = true ∧
      current_price ≤ s.trailing_stop_price.getD 0 then "TRAILING_STOP"
  else if s.take_profit_price ≤ current_price then
    if s.tp_sell_percentage < 100 then
      "TAKE_PROFIT_PARTIAL_" ++ toString s.tp_sell_percentage ++ "PCT"
    else "TAKE_PROFIT"
  else "UNKNOWN"

/-- Python's `str.startswith`, modelled on the character sequence (avoiding
byte-position internals): `pre` is a prefix of `s`. -/
def pyStartsWith (s pre : String) : Bool :=
  pre.data.isPrefixOf s.data

/-- One invocation of a registered sell callback: the source calls
`callback(symbol, buy_price, sell_price, quantity, reason)`; `cb` identifies
which registered callback was invoked (callbacks are modelled by an id). -/
structure SellNotification where
  cb : ℕ
  symbol : String
  buy_price : ℚ
  sell_price : ℚ
  quantity : ℚ
  reason : String
  deriving Repr, DecidableEq

/-- Result of `SellStrategyManager._execute_sell` (sell_strategy_manager.py
lines 415-489): whether it returned `True`, the computed sell quantity, the
partial-sell flag, the (unchanged) strategy, the failure notifications sent
to `self.sell_callbacks` when no order id came back, and the completion
callback it registered with the order executor on success. -/
structure ExecSellResult where
  success : Bool
  isPartialSell : Bool
  sell_quantity : ℚ
  strategy : Strategy
  notifications : List SellNotification
  registered : Option (String × String × Bool)
  deriving Repr, DecidableEq

/-- `SellStrategyManager._execute_sell` (sell_strategy_manager.py
lines 415-489), as a function of the strategy, the sell reason, the list of
registered sell-callback ids, and the outcome of
`order_executor.execute_market_sell` (`some orderId` or `none`). -/
def executeSell (s : Strategy) (reason : String) (sell_callbacks : List ℕ)
    (order : Option String) : ExecSellResult :=
  let tpPartialCond : Bool :=
    pyStartsWith reason "TAKE_PROFIT" && !s.tp_executed &&
      decide (s.tp_sell_percentage < 100)
  let isPartialSell : Bool := tpPartialCond
  let sell_quantity : ℚ :=
    if tpPartialCond then s.quantity * (s.tp_sell_percentage / 100)
    else s.quantity
  match order with
  | some orderId =>
    { success := true
      isPartialSell := isPartialSell
      sell_quantity := sell_quantity
      strategy := s
      notifications := []
      registered := some (orderId, reason, isPartialSell) }
  | none =>
    { success := false
      isPartialSell := isPartialSell
      sell_quantity := sell_quantity
      strategy := s
      notifications := sell_callbacks.map (fun c =>
        { cb := c
          symbol := s.symbol
          buy_price := s.buy_price
          sell_price := s.buy_price
          quantity := s.quantity
          reason := reason ++ "_FAILED" })
      registered := none }

/-- Result of `SellStrategyManager._handle_sell_completion`
(sell_strategy_manager.py lines 491-577): the updated strategy, whether it
was removed from the active set (full execution), the notifications sent to
the registered sell callbacks, and the computed profit percentage. -/
structure CompletionResult where
  strategy : Strategy
  removed : Bool
  notifications : List SellNotification
  profit_percentage : ℚ
  deriving Repr, DecidableEq

/-- `SellStrategyManager._handle_sell_completion` (sell_strategy_manager.py
lines 491-577): records the actual fill, flips `tp_executed` and reduces the
remaining quantity on a partial sell (status PARTIAL_EXECUTED) or marks the
strategy EXECUTED, fans out to the sell callbacks, and removes a fully
executed strategy from the active set.  The full-sell branch does not modify
the `quantity` field. -/
def handleSellCompletion (s : Strategy) (reason : String)
    (isPartialSell : Bool) (executed_qty avg_price total_value : ℚ)
    (sell_callbacks : List ℕ) : CompletionResult :=
  let s1 := { s with
    sell_price := some avg_price
    sell_quantity := some executed_qty
    sell_value := some total_value
    sell_reason := some reason }
  let profit_percentage : ℚ :=
    if 0 < s.buy_price then ((avg_price - s.buy_price) / s.buy_price) * 100
    else 0
  let s2 :=
    if isPartialSell then
      let s1 := { s1 with tp_executed := true }
      if executed_qty < s1.quantity then
        { s1 with
          quantity := s1.quantity - executed_qty
          status := "PARTIAL_EXECUTED" }
      else { s1 with status := "EXECUTED", executed := true }
    else { s1 with status := "EXECUTED", executed := true }
  let reasonOut :=
    if isPartialSell then reason ++ " (" ++ toString executed_qty ++ " sold)"
    else reason
  { strategy := s2
    removed := s2.executed
    notifications := sell_callbacks.map (fun c =>
      { cb := c
        symbol := s.symbol
        buy_price := s.buy_price
        sell_price := avg_price
        quantity := executed_qty
        reason := reasonOut })
    profit_percentage := profit_percentage }

/-- Predicate used by the aggregate queries over the active set:
symbol matches, status is ACTIVE, and the strategy is not executed
(sell_strategy_manager.py lines 170-172, 186-188, 202-204). -/
def isActiveForSymbol (symbol : String) (s : Strategy) : Bool :=
  s.symbol == symbol && s.status == "ACTIVE" && !s.executed

/-- `SellStrategyManager.has_strategy_for_symbol` (sell_strategy_manager.py
lines 157-173). -/
def hasStrategyForSymbol (strategies : List Strategy) (symbol : String) :
    Bool :=
  strategies.any (isActiveForSymbol symbol)

/-- `SellStrategyManager.get_total_quantity_for_symbol`
(sell_strategy_manager.py lines 191-205). -/
def getTotalQuantityForSymbol (strategies : List Strategy) (symbol : String) :
    ℚ :=
  ((strategies.filter (isActiveForSymbol symbol)).map Strategy.quantity).sum

/-- Number of active, non-executed strategies for a symbol in the active set. -/
def activeCount (strategies : List Strategy) (symbol : String) : ℕ :=
  (strategies.filter (isActiveForSymbol symbol)).length

/-! ### Order executor (`src/core/order_executor.py`) -/

/-- Outcome of the minimum-notional check at the top of
`OrderExecutor.execute_market_buy` (order_executor.py lines 37-41):
the possibly adjusted USDT amount and whether the adjustment warning was
logged. -/
structure BuyAmountResult where
  usdt_amount : ℚ
  adjusted : Bool
  deriving Repr, DecidableEq

/-- Minimum-notional enforcement in `OrderExecutor.execute_market_buy`
(order_executor.py lines 37-41): an amount below `Config.MIN_ORDER_USDT`
is raised to the minimum (and the adjustment logged); otherwise it is kept. -/
def executeMarketBuyAmount (usdt_amount min_order_usdt : ℚ) :
    BuyAmountResult :=
  if usdt_amount < min_order_usdt then
    { usdt_amount := min_order_usdt, adjusted := true }
  else
    { usdt_amount := usdt_amount, adjusted := false }

/-- Exchange order ids arrive from JSON and may be ints or strings; Python
dict keys keep the two apart (`12345` and `"12345"` are distinct keys). -/
inductive OrderId
  | intId (n : ℤ)
  | strId (s : String)
  deriving Repr, DecidableEq

/-- A Python dict key that is either an int or a string. -/
abbrev PyKey := ℤ ⊕ String

/-- `str(order_id)`, the normalization used by `register_order_callback`
(order_executor.py line 381) and by the primary FILLED path
(order_executor.py line 278). -/
def strKey : OrderId → String
  | OrderId.intId n => toString n
  | OrderId.strId s => s

/-- The raw dict key for an order id, as used by the fallback FILLED path
(`if order_id in self.order_callbacks`, order_executor.py line 309). -/
def rawKey : OrderId → PyKey
  | OrderId.intId n => Sum.inl n
  | OrderId.strId s => Sum.inr s

/-- The `self.order_callbacks` dict: order-id key to the list of registered
callback ids, in registration order (a Python dict preserves insertion
order, so an association list is faithful). -/
abbrev CallbackMap := List (PyKey × List ℕ)

/-- Dict lookup. -/
def cbLookup (m : CallbackMap) (k : PyKey) : Option (List ℕ) :=
  (m.find? (fun e => e.1 == k)).map Prod.snd

/-- Dict entry deletion (`del self.order_callbacks[key]`). -/
def cbDelete (m : CallbackMap) (k : PyKey) : CallbackMap :=
  m.filter (fun e => !(e.1 == k))

/-- `OrderExecutor.register_order_callback` (order_executor.py
lines 367-391): normalizes the order id with `str`, creates the entry if
missing, and appends the callback. -/
def registerOrderCallback (m : CallbackMap) (oid : OrderId) (cb : ℕ) :
    CallbackMap :=
  let k : PyKey := Sum.inr (strKey oid)
  match cbLookup m k with
  | none => m ++ [(k, [cb])]
  | some _ => m.map (fun e => if e.1 == k then (e.1, e.2 ++ [cb]) else e)

/-- Detailed fill information returned by
`mexc_api.get_filled_order_details` (quantity, average price, value). -/
structure FillDetails where
  quantity : ℚ
  price : ℚ
  value : ℚ
  deriving Repr, DecidableEq

/-- Order status values observed while polling
(`order_status.get('status')`, order_executor.py lines 242-328). -/
inductive OrderStatus
  | NEW
  | PARTIALLY_FILLED
  | FILLED
  | REJECTED
  | EXPIRED
  | CANCELED
  deriving Repr, DecidableEq

/-- The FILLED branch of `OrderExecutor._monitor_order_status`
(order_executor.py lines 244-318).  With detailed fill info available the
callbacks are looked up under `str(order_id)` and the entry is deleted
(lines 277-292); in the fallback branch (details unavailable,
lines 296-316) the lookup and deletion use the raw `order_id` key, and run
only when the executed quantity from the status response is positive.
Returns the callback ids invoked, in order, and the callback map after. -/
def monitorFilledStep (m : CallbackMap) (oid : OrderId)
    (details : Option FillDetails) (statusExecutedQty : ℚ) :
    List ℕ × CallbackMap :=
  match details with
  | some _ =>
    let k : PyKey := Sum.inr (strKey oid)
    match cbLookup m k with
    | some cbs => (cbs, cbDelete m k)
    | none => ([], m)
  | none =>
    if 0 < statusExecutedQty then
      let k : PyKey := rawKey oid
      match cbLookup m k with
      | some cbs => (cbs, cbDelete m k)
      | none => ([], m)
    else ([], m)

/-- The polling loop of `OrderExecutor._monitor_order_status`
(order_executor.py lines 221-365) over a list of observed statuses: every
non-terminal observation continues the loop; a FILLED observation fires the
callbacks (see `monitorFilledStep`) and returns; a terminal failure status
(REJECTED/EXPIRED/CANCELED) stops monitoring this order without ever firing
its callbacks (the retry path only places a fresh order with a new id and
never touches `order_callbacks`).  Returns the fired callback ids, in
order, and the callback map after. -/
def monitorRun (oid : OrderId) (details : Option FillDetails)
    (statusExecutedQty : ℚ) : List OrderStatus → CallbackMap →
    List ℕ × CallbackMap
  | [], m => ([], m)
  | st :: rest, m =>
    if st = OrderStatus.FILLED then
      monitorFilledStep m oid details statusExecutedQty
    else if st = OrderStatus.REJECTED ∨ st = OrderStatus.EXPIRED ∨
        st = OrderStatus.CANCELED then ([], m)
    else monitorRun oid details statusExecutedQty rest m

/-- The buy-fill branch of `OrderExecutor._monitor_order_status`
(order_executor.py lines 260-273): when a BUY order is observed FILLED, a
new strategy is created from the actual average price and executed quantity
only when `has_strategy_for_symbol` is false; otherwise creation is
skipped.  `add_strategy` is called without a config, i.e. with the process
defaults. -/
def onBuyFilled (strategies : List Strategy) (side symbol : String)
    (avg_price executed_qty : ℚ) : List Strategy :=
  if side == "BUY" then
    if hasStrategyForSymbol strategies symbol = false then
      strategies ++ [addStrategy symbol avg_price executed_qty defaultConfig]
    else strategies
  else strategies

/-- A sequence of observed fills, each `(side, symbol, avg_price,
executed_qty)`, routed through the automatic strategy-creation path. -/
def applyFills (strategies : List Strategy)
    (fills : List (String × String × ℚ × ℚ)) : List Strategy :=
  fills.foldl
    (fun m f => onBuyFilled m f.1 f.2.1 f.2.2.1 f.2.2.2) strategies

/-! ### Definitions supporting the monotonicity statements (C4) -/

/-- Comparison of two snapshots of the nullable trailing-stop price:
either it was unset before, or it is still set and has not decreased. -/
def tslMonoB : Option ℚ → Option ℚ → Bool
  | none, _ => true
  | some _, none => false
  | some t, some u => decide (t ≤ u)

/-- One monitoring iteration never decreases the stored highest price, and
never lowers (or clears) a trailing-stop price that was already set. -/
def stepMono (a b : Strategy) : Prop :=
  a.highest_price ≤ b.highest_price ∧
    tslMonoB a.trailing_stop_price b.trailing_stop_price = true

/-- Reachability invariant of the price-tracking state: the highest observed
price is positive (strategies are created from a positive buy price and only
ever raise it), and a non-null trailing-stop price implies the trailing stop
was activated with a positive percentage, a zero stored trailing-stop price
occurring only for a 100% trailing percentage. -/
def TslInv (s : Strategy) : Prop :=
  0 < s.highest_price ∧
    (s.trailing_stop_price ≠ none →
      s.tsl_activated = true ∧ 0 < s.trailing_stop_percentage ∧
        (s.trailing_stop_price = some 0 → s.trailing_stop_percentage = 100))

instance (s : Strategy) : Decidable (TslInv s) := by
  unfold TslInv; infer_instance

/-- The successive states of one strategy as `_update_price_tracking` is
applied to a series of observed prices (the initial state included). -/
def priceTrace (s : Strategy) (ps : List ℚ) : List Strategy :=
  ps.scanl updatePriceTracking s

/-! ### Concrete fixtures used by the claim theorems -/

/-- C1 fixture: two callbacks registered for the integer order id 12345
(`register_order_callback` stores both under the string key "12345"). -/
def c1Map : CallbackMap :=
  registerOrderCallback
    (registerOrderCallback [] (OrderId.intId 12345) 0) (OrderId.intId 12345) 1

/-- C2 witness fixture: an ACTIVE strategy whose trailing stop is activated
at 96 and whose stop loss sits at 95. -/
def c2w : Strategy :=
  { symbol := "BTCUSDT"
    buy_price := 100
    quantity := 1
    original_quantity := 1
    take_profit_price := 110
    tp_sell_percentage := 100
    tp_executed := false
    stop_loss_price := 95
    trailing_stop_percentage := 4
    trailing_stop_price := some 96
    tsl_min_activation_percentage := 0
    tsl_activation_price := 100
    tsl_activated := true
    highest_price := 101
    time_based_minutes := 0
    status := "ACTIVE"
    executed := false
    sell_price := none
    sell_quantity := none
    sell_value := none
    sell_reason := none }

/-- C3 fixture: take-profit 10%, sell 50% at TP, stop-loss 5%, no trailing
stop, no time-based exit. -/
def c3cfg : StrategyConfig := ⟨10, 50, 5, 0, 0, 0⟩

/-- C3 fixture: buy at 100, quantity 10 (take-profit price 110, stop-loss
price 95). -/
def c3s0 : Strategy := addStrategy "BTCUSDT" 100 10 c3cfg

/-- C3 fixture: state after observing the take-profit price 110. -/
def c3s1 : Strategy := updatePriceTracking c3s0 110

/-- C3 fixture: the reason reported at price 110. -/
def c3reason : String := getSellReason c3s1 110

/-- C3 fixture: the sell issued at price 110 (order placement succeeds). -/
def c3exec : ExecSellResult := executeSell c3s1 c3reason [0] (some "order1")

/-- C3 fixture: completion of the partial take-profit sell, 5 units filled
at 110. -/
def c3done : CompletionResult :=
  handleSellCompletion c3s1 c3reason c3exec.isPartialSell 5 110 550 [0]

/-- C3 fixture: the strategy after the partial take-profit completed. -/
def c3s2 : Strategy := c3done.strategy

/-- C3 fixture: the later stop-loss sell of the remainder at price 94. -/
def c3exec2 : ExecSellResult :=
  executeSell c3s2 (getSellReason c3s2 94) [0] (some "order2")

/-- C3 fixture: completion of the stop-loss sell, 5 units filled at 94. -/
def c3done2 : CompletionResult :=
  handleSellCompletion c3s2 (getSellReason c3s2 94) c3exec2.isPartialSell
    5 94 470 [0]

/-- C4 witness fixture: trailing stop 5% activating 10% above a buy at 100. -/
def c4w : Strategy := addStrategy "BTCUSDT" 100 1 ⟨20, 100, 10, 5, 10, 0⟩

/-- C4 witness fixture: a price series with ups and downs after activation. -/
def c4ps : List ℚ := [112, 105, 120, 110, 130]

/-- C5 fixture: take-profit 10%, stop-loss 5%, trailing stop 0%, sell 100%
at TP. -/
def c5cfg : StrategyConfig := ⟨10, 100, 5, 0, 0, 0⟩

/-- C5 fixture: the scenario strategy (buy at 100.0, quantity 1.0). -/
def c5s0 : Strategy := addStrategy "BTCUSDT" 100 1 c5cfg

/-- C5 fixture: state after observing price 94.0. -/
def c5s1 : Strategy := updatePriceTracking c5s0 94

/-- C5 fixture: the sell issued at price 94 (order placement succeeds). -/
def c5exec : ExecSellResult :=
  executeSell c5s1 (getSellReason c5s1 94) [0] (some "order5")

/-- C5 fixture: completion of the full stop-loss sell, 1 unit filled at 94. -/
def c5done : CompletionResult :=
  handleSellCompletion c5s1 (getSellReason c5s1 94) c5exec.isPartialSell
    1 94 94 [0]

/-- C6 fixture: trailing stop 5% with activation threshold 0% above the buy
price, so the activation price equals the initial highest price (both 100). -/
def c6s : Strategy := addStrategy "XUSDT" 100 1 ⟨10, 100, 5, 5, 0, 0⟩

/-- C8 fixture: the active set after creating a strategy with buy price 0. -/
def c8m : List Strategy := addStrategyToActive [] "BTCUSDT" 0 1 defaultConfig

/-- C10 witness fixture: an active set already holding one ACTIVE strategy
for BTCUSDT. -/
def c10m : List Strategy := [addStrategy "BTCUSDT" 100 1 defaultConfig]

/-- C10 witness fixture: two automatic buy fills, one per symbol. -/
def c10fills : List (String × String × ℚ × ℚ) :=
  [("BUY", "BTCUSDT", 50, 2), ("BUY", "ETHUSDT", 10, 1)]

/-!
## Theorems

The `Rat` arithmetic operations are `@[irreducible]` in Batteries, which
blocks kernel evaluation in `decide`; they are made semireducible locally
for the concrete computations below.
-/

section
attribute [local semireducible] Rat.mul Rat.add Rat.sub Rat.inv

lemma tslMonoB_refl (x : Option ℚ) : tslMonoB x x = true := by
  cases x <;> simp [tslMonoB]

lemma stepMono_refl (s : Strategy) : stepMono s s :=
  ⟨le_refl _, tslMonoB_refl _⟩

/-- A strategy created from a positive buy price satisfies the
price-tracking reachability invariant. -/
lemma TslInv_addStrategy (symbol : String) (buy_price quantity : ℚ)
    (cfg : StrategyConfig) (hb : 0 < buy_price) :
    TslInv (addStrategy symbol buy_price quantity cfg) := by
  refine ⟨by simpa [addStrategy] using hb, fun hne => ?_⟩
  exact absurd (by simp [addStrategy]) hne

/-- One `_update_price_tracking` iteration from a reachable state never
lowers the highest price or a set trailing-stop price, and preserves the
reachability invariant. -/
lemma updatePriceTracking_stepMono (s : Strategy) (p : ℚ) (hs : TslInv s) :
    stepMono s (updatePriceTracking s p) ∧
      TslInv (updatePriceTracking s p) := by
  obtain ⟨hh, hinv⟩ := hs
  by_cases h1 : s.highest_price < p
  case neg =>
    unfold updatePriceTracking
    rw [if_neg h1]
    exact ⟨stepMono_refl s, ⟨hh, hinv⟩⟩
  case pos =>
    have hp0 : 0 < p := lt_trans hh h1
    simp only [updatePriceTracking]
    rw [if_pos h1]
    by_cases h2 : s.tsl_activated = false ∧ 0 < s.trailing_stop_percentage
    · rw [if_pos h2]
      have htn : s.trailing_stop_price = none := by
        rcases hne : s.trailing_stop_price with _ | t
        · rfl
        · exfalso
          have hact := (hinv (by simp [hne])).1
          rw [h2.1] at hact
          cases hact
      by_cases h3 : s.tsl_activation_price ≤ p
      · rw [if_pos h3]
        refine ⟨⟨le_of_lt h1, by simp [stepMono, tslMonoB, htn]⟩, ?_⟩
        refine ⟨hp0, fun _ => ⟨rfl, h2.2, fun hz => ?_⟩⟩
        have hz' : p * (1 - s.trailing_stop_percentage / 100) = 0 :=
          Option.some.inj hz
        rcases mul_eq_zero.mp hz' with h | h
        · exact absurd h (ne_of_gt hp0)
        · have h100 : s.trailing_stop_percentage / 100 = 1 := by linarith
          have := div_eq_one_iff_eq (by norm_num : (100:ℚ) ≠ 0) |>.mp h100
          linarith [this]
      · rw [if_neg h3]
        refine ⟨⟨le_of_lt h1, by simp [tslMonoB, htn]⟩,
          ⟨hp0, fun hne => ?_⟩⟩
        exact absurd
          (by simp [htn] :
            ¬ ({s with highest_price := p}.trailing_stop_price ≠ none))
          (fun hc => hc hne)
    · rw [if_neg h2]
      by_cases h4 : s.tsl_activated = true ∧ 0 < s.trailing_stop_percentage
      · rw [if_pos h4]
        rcases htp : s.trailing_stop_price with _ | t
        · simp only [htp]
          refine ⟨⟨le_of_lt h1, by simp [tslMonoB, htp]⟩, ?_⟩
          refine ⟨hp0, fun _ => ⟨h4.1, h4.2, fun hz => ?_⟩⟩
          have hz' : p * (1 - s.trailing_stop_percentage / 100) = 0 :=
            Option.some.inj hz
          rcases mul_eq_zero.mp hz' with h | h
          · exact absurd h (ne_of_gt hp0)
          · have h100 : s.trailing_stop_percentage / 100 = 1 := by linarith
            have := div_eq_one_iff_eq (by norm_num : (100:ℚ) ≠ 0) |>.mp h100
            linarith [this]
        · simp only [htp]
          have hrest := hinv (by simp [htp])
          by_cases h5 : t = 0 ∨ t < p * (1 - s.trailing_stop_percentage / 100)
          · rw [if_pos h5]
            have htle : t ≤ p * (1 - s.trailing_stop_percentage / 100) := by
              rcases h5 with h5 | h5
              · subst h5
                have hpct : s.trailing_stop_percentage = 100 :=
                  hrest.2.2 (by rw [htp])
                rw [hpct]
                norm_num
              · exact le_of_lt h5
            refine ⟨⟨le_of_lt h1, by simp [tslMonoB, htp, htle]⟩, ?_⟩
            refine ⟨hp0, fun _ => ⟨h4.1, h4.2, fun hz => ?_⟩⟩
            have hz' : p * (1 - s.trailing_stop_percentage / 100) = 0 :=
              Option.some.inj hz
            rcases mul_eq_zero.mp hz' with h | h
            · exact absurd h (ne_of_gt hp0)
            · have h100 : s.trailing_stop_percentage / 100 = 1 := by linarith
              have := div_eq_one_iff_eq (by norm_num : (100:ℚ) ≠ 0) |>.mp h100
              linarith [this]
          · rw [if_neg h5]
            refine ⟨⟨le_of_lt h1, by simp [tslMonoB, htp]⟩, ?_⟩
            refine ⟨hp0, fun _ => ⟨h4.1, h4.2, fun hz => ?_⟩⟩
            exact hrest.2.2 (by rw [htp, Option.some.inj hz])
      · rw [if_neg h4]
        refine ⟨⟨le_of_lt h1, tslMonoB_refl _⟩, ⟨hp0, fun hne => ?_⟩⟩
        exact hinv (by simpa using hne)

/-- Head of a price trace. -/
lemma priceTrace_head (s : Strategy) (ps : List ℚ) :
    (priceTrace s ps).head? = some s := by
  cases ps <;> simp [priceTrace]

/-- If no active strategy exists for a symbol, the active count for that
symbol is zero. -/
lemma activeCount_eq_zero_of_not_has (m : List Strategy) (sym : String)
    (h : hasStrategyForSymbol m sym = false) : activeCount m sym = 0 := by
  unfold hasStrategyForSymbol at h
  unfold activeCount
  rw [List.length_eq_zero, List.filter_eq_nil_iff]
  intro a ha
  have := List.any_eq_false.mp h a ha
  simpa using this

/-- Active count over an appended singleton. -/
lemma activeCount_append_single (m : List Strategy) (s : Strategy)
    (sym : String) :
    activeCount (m ++ [s]) sym =
      activeCount m sym +
        (if isActiveForSymbol sym s = true then 1 else 0) := by
  unfold activeCount
  rw [List.filter_append]
  by_cases h : isActiveForSymbol sym s = true <;> simp [h]

/-- A freshly created strategy matches the active predicate for `sym` iff
it was created for `sym`. -/
lemma isActive_addStrategy (sym symbol : String) (p q : ℚ)
    (cfg : StrategyConfig) :
    isActiveForSymbol sym (addStrategy symbol p q cfg) = (symbol == sym) := by
  simp [isActiveForSymbol, addStrategy]

/-- One automatic buy-fill observation preserves "at most one active
strategy per symbol". -/
lemma activeCount_onBuyFilled_le (m : List Strategy) (side sym' : String)
    (p q : ℚ) (sym : String) (h : activeCount m sym ≤ 1) :
    activeCount (onBuyFilled m side sym' p q) sym ≤ 1 := by
  unfold onBuyFilled
  split_ifs with hside hhas
  · rw [activeCount_append_single]
    by_cases hmatch :
        isActiveForSymbol sym (addStrategy sym' p q defaultConfig) = true
    · have hsym : sym' = sym := by
        have := (isActive_addStrategy sym sym' p q defaultConfig) ▸ hmatch
        exact beq_iff_eq.mp this
      have h0 : activeCount m sym = 0 :=
        activeCount_eq_zero_of_not_has m sym (hsym ▸ hhas)
      simp [hmatch, h0]
    · simp [hmatch]
      exact h
  · exact h
  · exact h

/-- C1 (failing input): for the integer order id 12345 with two registered
completion callbacks, a FILLED observation handled through the fallback
branch (detailed fill info unavailable, executed quantity 2 from the status
response) fires no callback at all — the fallback lookup uses the raw
integer key while registration stored the callbacks under the string key
"12345".  With detailed fill info available, the same monitoring run fires
both callbacks in registration order and then clears the entry. -/
theorem fallback_filled_drops_int_keyed_callbacks :
    c1Map = [(Sum.inr "12345", [0, 1])] ∧
      monitorRun (OrderId.intId 12345) none 2
        [OrderStatus.NEW, OrderStatus.FILLED] c1Map = ([], c1Map) ∧
      monitorRun (OrderId.intId 12345) (some ⟨2, 5, 10⟩) 2
        [OrderStatus.NEW, OrderStatus.FILLED] c1Map = ([0, 1], []) := by
  decide

/-- C2: when the current price is at or below the stop-loss price, the
reported sell reason is STOP_LOSS and not TRAILING_STOP, even when the
trailing stop is activated and the price is also at or below the stored
trailing-stop price. -/
theorem getSellReason_stopLoss_beats_trailingStop (s : Strategy) (p t : ℚ)
    (hsl : p ≤ s.stop_loss_price) (_hact : s.tsl_activated = true)
    (_htsl : s.trailing_stop_price = some t) (_hle : p ≤ t) :
    getSellReason s p = "STOP_LOSS" ∧
      getSellReason s p ≠ "TRAILING_STOP" := by
  unfold getSellReason
  rw [if_pos hsl]
  exact ⟨rfl, by decide⟩

/-- C2 witness: a concrete strategy with stop loss at 95 and an activated
trailing stop at 96, observed at price 94, which is at or below both. -/
theorem getSellReason_stopLoss_beats_trailingStop_witness :
    getSellReason c2w 94 = "STOP_LOSS" ∧
      getSellReason c2w 94 ≠ "TRAILING_STOP" :=
  getSellReason_stopLoss_beats_trailingStop c2w 94 96 (by decide) (by decide)
    (by decide) (by decide)

/-- C3: with `tp_sell_percentage = 50`, buy price 100 and quantity 10, the
take-profit price 110 triggers a partial sell of exactly 5 (50% of the
remaining quantity); completing it flips `tp_executed`, sets status
PARTIAL_EXECUTED with remaining quantity 5, and take-profit cannot
re-trigger at the same spike price; a later stop-loss hit at 94 sells the
remaining 5 and completing that sell makes the status EXECUTED. -/
theorem partial_take_profit_then_stop_loss :
    shouldSell c3s1 110 = true ∧
      c3reason = "TAKE_PROFIT_PARTIAL_50PCT" ∧
      c3exec.isPartialSell = true ∧
      c3exec.sell_quantity = 5 ∧
      c3done.strategy.tp_executed = true ∧
      c3done.strategy.status = "PARTIAL_EXECUTED" ∧
      c3done.strategy.quantity = 5 ∧
      c3done.removed = false ∧
      shouldSell c3s2 110 = false ∧
      shouldSell c3s2 94 = true ∧
      getSellReason c3s2 94 = "STOP_LOSS" ∧
      c3exec2.isPartialSell = false ∧
      c3exec2.sell_quantity = 5 ∧
      c3done2.strategy.status = "EXECUTED" ∧
      c3done2.strategy.executed = true ∧
      c3done2.removed = true := by
  decide

/-- C4: from any reachable strategy state (see `TslInv_addStrategy`) and
any series of observed prices, the stored highest price is non-decreasing
at every iteration of `_update_price_tracking`, and the trailing-stop
price, once non-null, never drops and never becomes null again. -/
theorem priceTracking_monotone (s : Strategy) (ps : List ℚ)
    (hs : TslInv s) : List.Chain' stepMono (priceTrace s ps) := by
  induction ps generalizing s with
  | nil => simp [priceTrace]
  | cons p ps ih =>
    obtain ⟨hstep, hinv⟩ := updatePriceTracking_stepMono s p hs
    have hrest := ih (updatePriceTracking s p) hinv
    have hsplit : priceTrace s (p :: ps) =
        s :: priceTrace (updatePriceTracking s p) ps := by
      simp [priceTrace]
    rw [hsplit, List.chain'_cons']
    refine ⟨fun y hy => ?_, hrest⟩
    rw [priceTrace_head] at hy
    cases hy
    exact hstep

/-- C4 witness: a freshly created strategy (buy 100, trailing 5% activating
at 110) run through a price series with ups and downs after activation. -/
theorem priceTracking_monotone_witness :
    TslInv c4w ∧ List.Chain' stepMono (priceTrace c4w c4ps) :=
  ⟨by decide, priceTracking_monotone c4w c4ps (by decide)⟩

/-- C5 counterexample: in the end-to-end stop-loss scenario (buy 100.0,
quantity 1.0, stop-loss 5%, price 94.0), completing the full sell leaves
the stored `quantity` field at 1, not 0, refuting the claimed
`remaining_quantity = 0`. -/
theorem full_sell_quantity_not_zeroed :
    shouldSell c5s1 94 = true ∧
      getSellReason c5s1 94 = "STOP_LOSS" ∧
      c5done.strategy.status = "EXECUTED" ∧
      c5done.strategy.quantity = 1 ∧
      ¬ c5done.strategy.quantity = 0 := by
  decide

/-- C5 amended: price 94.0 triggers a stop-loss sell of the full quantity
1; completing it marks the strategy EXECUTED (terminal flag set) and
removes it from the active set, while the stored `quantity` field stays at
1 rather than being zeroed. -/
theorem stop_loss_full_sell_executes :
    shouldSell c5s1 94 = true ∧
      getSellReason c5s1 94 = "STOP_LOSS" ∧
      c5exec.isPartialSell = false ∧
      c5exec.sell_quantity = 1 ∧
      c5done.strategy.status = "EXECUTED" ∧
      c5done.strategy.executed = true ∧
      c5done.removed = true ∧
      c5done.strategy.quantity = 1 := by
  decide

/-- C6 counterexample: a strategy whose activation price equals the initial
highest price (buy 100, activation threshold 0%, trailing 5%): the observed
price 100 is at or above the activation price and the trailing stop is not
yet activated, yet `_update_price_tracking` does not activate it, because
activation is only checked when the price strictly exceeds the stored
highest price. -/
theorem tsl_activation_needs_new_high :
    c6s.tsl_activated = false ∧
      0 < c6s.trailing_stop_percentage ∧
      c6s.tsl_activation_price ≤ 100 ∧
      (updatePriceTracking c6s 100).tsl_activated = false ∧
      (updatePriceTracking c6s 100).trailing_stop_price = none := by
  decide

/-- C6 amended: when the trailing stop is not yet activated, the trailing
percentage is positive, and the observed price strictly exceeds the stored
highest price and is at or above the activation price, the trailing stop is
activated with its price set to current price × (1 − trailing_pct/100). -/
theorem tsl_activation (s : Strategy) (p : ℚ)
    (h0 : s.tsl_activated = false) (h1 : s.highest_price < p)
    (h2 : 0 < s.trailing_stop_percentage)
    (h3 : s.tsl_activation_price ≤ p) :
    (updatePriceTracking s p).tsl_activated = true ∧
      (updatePriceTracking s p).trailing_stop_price =
        some (p * (1 - s.trailing_stop_percentage / 100)) := by
  simp only [updatePriceTracking]
  rw [if_pos h1, if_pos ⟨h0, h2⟩, if_pos h3]
  exact ⟨rfl, rfl⟩

/-- C6 witness: the same fixture strategy activates at price 101 (a new
high at or above the activation price 100), with trailing-stop price
101 × 0.95. -/
theorem tsl_activation_witness :
    (updatePriceTracking c6s 101).tsl_activated = true ∧
      (updatePriceTracking c6s 101).trailing_stop_price =
        some (101 * (1 - c6s.trailing_stop_percentage / 100)) :=
  tsl_activation c6s 101 (by decide) (by decide) (by decide) (by decide)

/-- C7: when sell-order placement returns no order id, `_execute_sell`
leaves the strategy unchanged, returns failure, and notifies every
registered sell callback with the buy price reused as the sell price and
the reason suffixed `_FAILED`. -/
theorem executeSell_failure_notifies_and_preserves
    (s : Strategy) (reason : String) (cbs : List ℕ) :
    (executeSell s reason cbs none).strategy = s ∧
      (executeSell s reason cbs none).success = false ∧
      (executeSell s reason cbs none).notifications = cbs.map (fun c =>
        { cb := c
          symbol := s.symbol
          buy_price := s.buy_price
          sell_price := s.buy_price
          quantity := s.quantity
          reason := reason ++ "_FAILED" }) ∧
      ∀ n ∈ (executeSell s reason cbs none).notifications,
        n.sell_price = s.buy_price ∧ n.reason = reason ++ "_FAILED" := by
  refine ⟨rfl, rfl, rfl, ?_⟩
  intro n hn
  simp only [executeSell, List.mem_map] at hn
  obtain ⟨c, _, rfl⟩ := hn
  exact ⟨rfl, rfl⟩

/-- C8 counterexample: `add_strategy` accepts a buy price of zero — the
strategy is created, stored in the active set and reported ACTIVE, refuting
the claim that creation is rejected. -/
theorem zero_buy_price_strategy_created :
    c8m = [addStrategy "BTCUSDT" 0 1 defaultConfig] ∧
      hasStrategyForSymbol c8m "BTCUSDT" = true ∧
      (addStrategy "BTCUSDT" 0 1 defaultConfig).buy_price = 0 ∧
      (addStrategy "BTCUSDT" 0 1 defaultConfig).status = "ACTIVE" := by
  decide

/-- C8 amended: strategy creation performs no buy-price validation — a zero
buy price yields an ACTIVE strategy whose derived prices are all zero; the
creation-time percentage math only multiplies by the buy price, and the
profit computation on sell completion divides only under a `buy_price > 0`
guard, returning 0 for a zero buy price, so no division by zero occurs. -/
theorem zero_buy_price_no_division :
    (addStrategy "BTCUSDT" 0 1 defaultConfig).status = "ACTIVE" ∧
      (addStrategy "BTCUSDT" 0 1 defaultConfig).take_profit_price = 0 ∧
      (addStrategy "BTCUSDT" 0 1 defaultConfig).stop_loss_price = 0 ∧
      (handleSellCompletion (addStrategy "BTCUSDT" 0 1 defaultConfig)
        "STOP_LOSS" false 1 50 50 [0]).profit_percentage = 0 := by
  decide

/-- C9: a market-buy request below the configured minimum notional is sized
up to exactly the minimum and the adjustment is flagged (logged); the order
proceeds with the adjusted amount rather than being dropped. -/
theorem executeMarketBuy_min_notional (u m : ℚ) (h : u < m) :
    executeMarketBuyAmount u m = { usdt_amount := m, adjusted := true } := by
  unfold executeMarketBuyAmount
  rw [if_pos h]

/-- C9 witness: a 0.3 USDT request with a 1.0 USDT minimum becomes a 1.0
USDT order. -/
theorem executeMarketBuy_min_notional_witness :
    executeMarketBuyAmount (3/10) 1 =
      { usdt_amount := 1, adjusted := true } :=
  executeMarketBuy_min_notional (3/10) 1 (by decide)

/-- C10: on a FILLED buy order, automatic strategy creation is skipped when
an active, non-executed strategy already exists for the symbol, and creates
exactly one strategy (from the actual fill price and quantity, with the
default config) when none exists; consequently the automatic fill path
preserves "at most one concurrent active strategy per symbol". -/
theorem onBuyFilled_no_duplicate_strategy (m : List Strategy) (sym : String)
    (p q : ℚ) :
    (hasStrategyForSymbol m sym = true → onBuyFilled m "BUY" sym p q = m) ∧
      (hasStrategyForSymbol m sym = false →
        onBuyFilled m "BUY" sym p q =
          m ++ [addStrategy sym p q defaultConfig]) ∧
      (∀ fills, activeCount m sym ≤ 1 →
        activeCount (applyFills m fills) sym ≤ 1) := by
  refine ⟨?_, ?_, ?_⟩
  · intro h
    simp [onBuyFilled, h]
  · intro h
    simp [onBuyFilled, h]
  · intro fills
    induction fills generalizing m with
    | nil => intro h; simpa [applyFills] using h
    | cons f fs ih =>
      intro h
      have step := activeCount_onBuyFilled_le m f.1 f.2.1 f.2.2.1 f.2.2.2 sym h
      simpa [applyFills] using ih _ step

/-- C10 witness: with one ACTIVE BTCUSDT strategy already present, a second
automatic BUY fill for BTCUSDT is skipped, and a run of two fills never
yields more than one active BTCUSDT strategy. -/
theorem onBuyFilled_no_duplicate_strategy_witness :
    onBuyFilled c10m "BUY" "BTCUSDT" 50 2 = c10m ∧
      activeCount (applyFills c10m c10fills) "BTCUSDT" ≤ 1 :=
  ⟨(onBuyFilled_no_duplicate_strategy c10m "BTCUSDT" 50 2).1 (by decide),
    (onBuyFilled_no_duplicate_strategy c10m "BTCUSDT" 50 2).2.2 c10fills
      (by decide)⟩

end

end SniperCore

